import Mathlib

/-
Verification of the coordination layer of `enhanced_chess.py` (a pygame chess
GUI).  The legal-move rules library (python-chess) and the engine process
(Stockfish) are external collaborators; they are embedded as oracle
parameters (`Rules`, `Engine`).  The application's own session state and its
event loop are embedded faithfully below; source line numbers refer to
`src/enhanced_chess.py`.
-/

/-- Window geometry constants, lines 13-20 of the source. -/
def WINDOW_SIZE : Int := 1000

/-- Board pixel size, line 14. -/
def BOARD_SIZE : Int := 600

/-- Size of one board square in pixels, line 15 (600 // 8 = 75). -/
def SQUARE_SIZE : Int := BOARD_SIZE / 8

/-- Left/top margin of the board, line 16. -/
def MARGIN : Int := 50

/-- A pygame rectangle (left, top, width, height). -/
structure Rect where
  x : Int
  y : Int
  w : Int
  h : Int

/-- pygame `Rect.collidepoint`: a point on the right or bottom edge is not
inside the rectangle. -/
def Rect.collidepoint (r : Rect) (p : Int × Int) : Bool :=
  decide (r.x ≤ p.1 ∧ p.1 < r.x + r.w ∧ r.y ≤ p.2 ∧ p.2 < r.y + r.h)

/-- The White choice button of the color-selection screen, line 105. -/
def whiteRect : Rect := ⟨WINDOW_SIZE / 4, 300, 200, 60⟩

/-- The Black choice button of the color-selection screen, line 110. -/
def blackRect : Rect := ⟨WINDOW_SIZE * 3 / 4 - 200, 300, 200, 60⟩

/-- The New Game button of the outcome popup, lines 238-240. -/
def newGameRect : Rect := ⟨(WINDOW_SIZE - 200) / 2, WINDOW_SIZE - 100, 200, 50⟩

/-- A chess move as in python-chess: origin square, destination square and an
optional promotion piece.  `chess.Move(a, b)` built by the click handler has
`promotion = none`.  Squares are numbered 0..63, `rank * 8 + file`. -/
structure Move where
  from_square : Nat
  to_square : Nat
  promotion : Option Char := none
deriving DecidableEq, Repr

/-- A piece: `color` is `true` for White (chess.WHITE == True) and `kind` is
the upper-case symbol letter (what `piece.symbol().upper()` returns). -/
structure Piece where
  color : Bool
  kind : Char
deriving DecidableEq, Repr

/-- The observable interface of the external rules library (python-chess),
indexed by the move stack built from the initial position by `Board.push`.
`pieceAt`, `legalMoves`, `san` and the termination predicates are queries of
the position reached by pushing the stack onto `chess.Board()`. -/
structure Rules where
  pieceAt : List Move → Nat → Option Piece
  legalMoves : List Move → List Move
  san : List Move → Move → String
  isGameOver : List Move → Bool
  isCheckmate : List Move → Bool

/-- The external engine (`get_ai_move`, lines 348-357): given the position it
returns one move, or `none` when the engine is missing, fails or times out
(the source catches every exception and returns `None`). -/
def Engine : Type := List Move → Option Move

/-- Side to move of the position reached by the stack: `chess.Board()` starts
with White to move and `Board.push` flips the turn on every push, so the side
to move is White exactly when the stack length is even. -/
def turnOf (stack : List Move) : Bool := stack.length % 2 == 0

/-- Python truthiness of the `Optional[bool]` field `player_color`:
`None` and `False` are falsy. -/
def pcTruthy : Option Bool → Bool
  | some b => b
  | none => false

/-- File index of a square (`chess.square_file`). -/
def squareFile (sq : Nat) : Nat := sq % 8

/-- Rank index of a square (`chess.square_rank`). -/
def squareRank (sq : Nat) : Nat := sq / 8

/-- `chess.square(file, rank) = rank * 8 + file`. -/
def mkSquare (file rank : Nat) : Nat := rank * 8 + file

/-- `ChessGame.square_to_pixel`, lines 285-292: top-left pixel of a square's
rectangle.  The drawn rank is flipped when `player_color` is truthy (human
plays White); the file is never flipped. -/
def square_to_pixel (pc : Option Bool) (sq : Nat) : Int × Int :=
  let rank := squareRank sq
  let file := squareFile sq
  let r := if pcTruthy pc = true then 7 - rank else rank
  (MARGIN + (file : Int) * SQUARE_SIZE, MARGIN + (r : Int) * SQUARE_SIZE)

/-- `ChessGame.pixel_to_square`, lines 294-307: bounds test, then integer
division by the square size (the operands are nonnegative under the bounds
test, so Nat division agrees with Python floor division), with the same rank
flip as `square_to_pixel`. -/
def pixel_to_square (pc : Option Bool) (pos : Int × Int) : Option Nat :=
  if MARGIN ≤ pos.1 ∧ pos.1 < MARGIN + BOARD_SIZE ∧
     MARGIN ≤ pos.2 ∧ pos.2 < MARGIN + BOARD_SIZE then
    let file := (pos.1 - MARGIN).toNat / SQUARE_SIZE.toNat
    let rank0 := (pos.2 - MARGIN).toNat / SQUARE_SIZE.toNat
    let rank := if pcTruthy pc = true then 7 - rank0 else rank0
    if file < 8 ∧ rank < 8 then some (mkSquare file rank) else none
  else none

/-- The mutable session state of `ChessGame` (fields of `__init__`,
lines 41-58) together with the loop-local `color_selection` flag of `run`
(line 385).  The board is represented by its move stack; `last_time` is
abstracted by passing each frame's elapsed wall time explicitly.  Clock
values and elapsed times are integers (the source uses Python floats; every
claim at issue concerns only ordering and sign, never rounding). -/
structure GameState where
  stack : List Move
  selected_square : Option Nat
  valid_moves : List Move
  last_move : Option Move
  game_over : Bool
  ai_thinking : Bool
  move_history : List String
  captured_w : List Char
  captured_b : List Char
  selected_piece : Option String
  selected_piece_pos : Option (Int × Int)
  player_color : Option Bool
  white_time : Int
  black_time : Int
  game_started : Bool
  checkmate_popup : Bool
  winner : Option String
  color_selection : Bool
deriving DecidableEq, Repr

/-- The state after `__init__` (lines 41-58), with `color_selection = True`
as set at the top of `run` (line 385). -/
def initState : GameState :=
  { stack := []
    selected_square := none
    valid_moves := []
    last_move := none
    game_over := false
    ai_thinking := false
    move_history := []
    captured_w := []
    captured_b := []
    selected_piece := none
    selected_piece_pos := none
    player_color := none
    white_time := 600
    black_time := 600
    game_started := false
    checkmate_popup := false
    winner := none
    color_selection := true }

/-- `ChessGame.reset_game`, lines 359-380: reinitializes every session field;
the loop-local `color_selection` flag is set separately by the caller. -/
def resetGame (s : GameState) : GameState :=
  { initState with color_selection := s.color_selection }

/-- The string stored in `selected_piece` on a press (line 438):
side letter followed by the lower-case symbol. -/
def pieceKey (p : Piece) : String :=
  (if p.color then ("w") else ("b")) ++ p.kind.toLower.toString

/-- Clearing the four selection fields, lines 470-473 (also 490-493). -/
def clearSelection (s : GameState) : GameState :=
  { s with selected_square := none
           valid_moves := []
           selected_piece := none
           selected_piece_pos := none }

/-- The shared move-application sequence of the human branch (lines 449-468)
and the engine branch (lines 500-517): SAN is taken from the pre-move
position, a piece standing on the destination square is appended to the
capture list keyed by its own color letter, the move is pushed and recorded,
and termination is checked.  On checkmate the winner is named after the side
opposite the new side to move; on a non-checkmate termination `winner` is not
assigned.  Only the human branch sets `ai_thinking := true` when the game
goes on (line 468). -/
def applyMove (R : Rules) (s : GameState) (mv : Move) (humanSide : Bool) : GameState :=
  let moveSan := R.san s.stack mv
  let s1 := match R.pieceAt s.stack mv.to_square with
    | some cp =>
        if cp.color = true then { s with captured_w := s.captured_w ++ [cp.kind] }
        else { s with captured_b := s.captured_b ++ [cp.kind] }
    | none => s
  let s2 := { s1 with stack := s1.stack ++ [mv]
                      move_history := s1.move_history ++ [moveSan]
                      last_move := some mv }
  if R.isGameOver s2.stack = true then
    { s2 with game_over := true
              winner := if R.isCheckmate s2.stack = true then
                          some (if turnOf s2.stack = true then ("Black") else ("White"))
                        else s2.winner
              checkmate_popup := true }
  else if humanSide = true then { s2 with ai_thinking := true } else s2

/-- The engine's first move as White after the human picks Black,
lines 408-413: SAN from the pre-move position, push, record, set
`last_move`.  This site performs no capture bookkeeping and no
termination check (from the initial position neither can trigger). -/
def firstAiApply (R : Rules) (s : GameState) (mv : Move) : GameState :=
  { s with stack := s.stack ++ [mv]
           move_history := s.move_history ++ [R.san s.stack mv]
           last_move := some mv }

/-- The undo shortcut, lines 482-493: guarded by at least two recorded
SAN entries, it pops the board twice and the history twice (the board pop is
total here because reachable states keep the two lengths equal, see
`stateInv`), clears the terminal and thinking flags and the selection. -/
def undoMove (s : GameState) : GameState :=
  if 2 ≤ s.move_history.length then
    { s with stack := s.stack.dropLast.dropLast
             move_history := s.move_history.dropLast.dropLast
             game_over := false
             checkmate_popup := false
             ai_thinking := false
             selected_square := none
             valid_moves := []
             selected_piece := none
             selected_piece_pos := none }
  else s

/-- The pygame events the loop reacts to (QUIT merely ends the loop and is
omitted); `keyDown` distinguishes the two handled shortcuts. -/
inductive PKey
  | keyR
  | keyU
  | otherKey
deriving DecidableEq, Repr

/-- Input events with the pointer position observed when they are handled. -/
inductive Event
  | mouseDown (button : Nat) (pos : Int × Int)
  | mouseUp (button : Nat) (pos : Int × Int)
  | mouseMotion (pos : Int × Int)
  | keyDown (k : PKey)
deriving DecidableEq, Repr

/-- The per-event dispatch of `ChessGame.run`, lines 388-493.  During color
selection (lines 392-415) only mouse presses act; afterwards the elif chain
handles presses (guarded by `not game_over and not ai_thinking`), releases
(same guard), drag motion, and the two keyboard shortcuts (unguarded). -/
def handleEvent (R : Rules) (E : Engine) (s : GameState) (e : Event) : GameState :=
  if s.color_selection = true then
    match e with
    | .mouseDown _ pos =>
        if whiteRect.collidepoint pos = true then
          { s with player_color := some true, color_selection := false, game_started := true }
        else if blackRect.collidepoint pos = true then
          let s1 := { s with player_color := some false, color_selection := false,
                             game_started := true }
          match E s1.stack with
          | some m => if m ∈ R.legalMoves s1.stack then firstAiApply R s1 m else s1
          | none => s1
        else s
    | _ => s
  else
    match e with
    | .mouseDown b pos =>
        if s.game_over = false ∧ s.ai_thinking = false ∧ b = 1 then
          if s.checkmate_popup = true then
            if newGameRect.collidepoint pos = true then
              { resetGame s with color_selection := true }
            else s
          else
            match pixel_to_square s.player_color pos with
            | none => s
            | some sq =>
                match R.pieceAt s.stack sq with
                | none => s
                | some p =>
                    if p.color = turnOf s.stack ∧
                       ((pcTruthy s.player_color = true ∧ p.color = true) ∨
                        (pcTruthy s.player_color = false ∧ p.color = false)) then
                      { s with selected_square := some sq
                               valid_moves := (R.legalMoves s.stack).filter
                                                (fun m => m.from_square == sq)
                               selected_piece := some (pieceKey p)
                               selected_piece_pos := some pos }
                    else s
        else s
    | .mouseUp b pos =>
        if s.game_over = false ∧ s.ai_thinking = false then
          match s.selected_square with
          | some sel =>
              if b = 1 then
                let s1 := match pixel_to_square s.player_color pos with
                  | some tgt =>
                      let mv : Move := { from_square := sel, to_square := tgt, promotion := none }
                      if mv ∈ s.valid_moves then applyMove R s mv true else s
                  | none => s
                clearSelection s1
              else s
          | none => s
        else s
    | .mouseMotion pos =>
        if s.selected_piece.isSome = true then { s with selected_piece_pos := some pos } else s
    | .keyDown k =>
        match k with
        | .keyR => { resetGame s with color_selection := true }
        | .keyU => undoMove s
        | .otherKey => s

/-- The per-frame engine block of `run`, lines 497-518: when `ai_thinking`
is set and the game is not over, one engine query is made; a missing or
illegal reply is skipped silently, and `ai_thinking` is cleared either way. -/
def aiBlock (R : Rules) (E : Engine) (s : GameState) : GameState :=
  if s.ai_thinking = true ∧ s.game_over = false then
    let s1 := match E s.stack with
      | some m => if m ∈ R.legalMoves s.stack then applyMove R s m false else s
      | none => s
    { s1 with ai_thinking := false }
  else s

/-- `ChessGame.update_timer`, lines 129-151, with the elapsed wall time since
the previous frame passed explicitly.  Nothing happens before game start or
after game over; otherwise the side to move's clock is decremented and both
clocks are checked for expiry immediately, White first. -/
def update_timer (s : GameState) (elapsed : Int) : GameState :=
  if s.game_started = false ∨ s.game_over = true then s
  else
    let s1 := if turnOf s.stack = true then { s with white_time := s.white_time - elapsed }
              else { s with black_time := s.black_time - elapsed }
    if s1.white_time ≤ 0 then
      { s1 with game_over := true, winner := some ("Black"), checkmate_popup := true }
    else if s1.black_time ≤ 0 then
      { s1 with game_over := true, winner := some ("White"), checkmate_popup := true }
    else s1

/-- One iteration of the main loop, lines 387-535: drain the event queue,
then, unless the color-selection screen is up, run the engine block and the
clock update (the remaining per-frame work only draws). -/
def frame (R : Rules) (E : Engine) (s : GameState) (events : List Event) (elapsed : Int) :
    GameState :=
  let s1 := events.foldl (handleEvent R E) s
  if s1.color_selection = true then s1 else update_timer (aiBlock R E s1) elapsed

/-- Iterated frames: each trace entry is one frame's event batch and elapsed
wall time. -/
def runTrace (R : Rules) (E : Engine) (s : GameState) (tr : List (List Event × Int)) :
    GameState :=
  tr.foldl (fun a f => frame R E a f.1 f.2) s

/-- The headline of the outcome popup, lines 228-231: the winner string is
always nonempty when set, so Python truthiness coincides with `isSome`. -/
def popupText (s : GameState) : String :=
  match s.winner with
  | some w => w ++ (" wins!")
  | none => ("Draw!")

/-- Move 12 → 28 (e2-e4). -/
def e2e4 : Move := ⟨12, 28, none⟩

/-- Move 52 → 36 (e7-e5). -/
def e7e5 : Move := ⟨52, 36, none⟩

/-- Move 11 → 27 (d2-d4). -/
def d2d4 : Move := ⟨11, 27, none⟩

/-- A white pawn. -/
def whitePawn : Piece := ⟨true, 'P'⟩

/-- A black pawn. -/
def blackPawn : Piece := ⟨false, 'P'⟩

/-- A concrete instance of the rules-library interface used to evaluate the
event loop on explicit traces: from the initial position the white pawns on
squares 12 and 11 may play `e2e4` or `d2d4`, after `e2e4` the reply `e7e5`
is legal, and the position reached by `d2d4` alone is a terminal,
non-checkmate position (standing in for any drawn termination the library
can report). -/
def rulesA : Rules :=
  { pieceAt := fun stack sq =>
      if stack = [] ∧ (sq = 12 ∨ sq = 11) then some whitePawn else none
    legalMoves := fun stack =>
      if stack = [] then [e2e4, d2d4] else if stack = [e2e4] then [e7e5] else []
    san := fun _ _ => ("mv")
    isGameOver := fun stack => stack == [d2d4]
    isCheckmate := fun _ => false }

/-- An engine oracle that answers `e7e5` to the position after `e2e4` and
returns no move elsewhere. -/
def engineA : Engine := fun stack => if stack = [e2e4] then some e7e5 else none

/-- An engine oracle that never returns a move (missing installation,
failure or timeout, lines 348-357). -/
def engineNone : Engine := fun _ => none

/-- A rules instance whose initial position has a black pawn on square 28,
used to exercise the capture bookkeeping. -/
def rulesCap : Rules :=
  { pieceAt := fun stack sq => if stack = [] ∧ sq = 28 then some blackPawn else none
    legalMoves := fun _ => [e2e4]
    san := fun _ _ => ("exd")
    isGameOver := fun _ => false
    isCheckmate := fun _ => false }

/-- Trace: the human picks White, then a frame elapses 601 seconds so the
White clock expires and the outcome popup appears. -/
def trTimeout : List (List Event × Int) :=
  [([Event.mouseDown 1 (300, 320)], 0), ([], 601)]

/-- Trace: pick White; play e2-e4 and receive the reply e7-e5; time out;
then in one frame press undo and play d2-d4 into a terminal non-checkmate
position.  The undo leaves the stale winner from the timeout in place. -/
def trStaleWinner : List (List Event × Int) :=
  [([Event.mouseDown 1 (300, 320)], 0),
   ([Event.mouseDown 1 (360, 510), Event.mouseUp 1 (360, 360)], 0),
   ([], 601),
   ([Event.keyDown PKey.keyU, Event.mouseDown 1 (280, 510), Event.mouseUp 1 (280, 360)], 0)]

/-- Trace: pick White, press the e2 pawn, and in the same frame let the
White clock expire while the piece is still selected. -/
def trSelectTimeout : List (List Event × Int) :=
  [([Event.mouseDown 1 (300, 320)], 0),
   ([Event.mouseDown 1 (360, 510)], 601)]

/-- Modelled from the spec: the on-screen position claim C4 predicts for a
square when the human plays Black — both the file and the rank mirrored
relative to the White-orientation mapping (which draws rank `r` at
`MARGIN + (7 - r) * SQUARE_SIZE`). -/
def mirroredBlackPixel (sq : Nat) : Int × Int :=
  (MARGIN + ((7 - squareFile sq : Nat) : Int) * SQUARE_SIZE,
   MARGIN + ((squareRank sq : Nat) : Int) * SQUARE_SIZE)

/-- A started game right after White was chosen (both clocks full). -/
def sClock : GameState := { initState with color_selection := false, game_started := true }

/-- A started game waiting on the engine block. -/
def sThinking : GameState :=
  { initState with color_selection := false, game_started := true, ai_thinking := true }

/-- A started game with the human playing White, no move made yet. -/
def sBase : GameState :=
  { initState with color_selection := false, game_started := true, player_color := some true }

/-- A finished two-ply game (as after a timeout), ready for undo. -/
def sUndo : GameState :=
  { initState with color_selection := false, game_started := true,
                   stack := [e2e4, e7e5], move_history := [("e4"), ("e5")],
                   game_over := true, checkmate_popup := true, winner := some ("Black") }

/-- A started game with the e2 pawn selected and `e2e4` as its only
legal destination. -/
def sSelected : GameState :=
  { initState with color_selection := false, game_started := true, player_color := some true,
                   selected_square := some 12, valid_moves := [e2e4],
                   selected_piece := some ("wp"), selected_piece_pos := some (360, 510) }

/-- A started game with the human playing Black, no move made yet. -/
def sHumanBlack : GameState :=
  { initState with color_selection := false, game_started := true, player_color := some false }

theorem applyMove_stack (R : Rules) (s : GameState) (mv : Move) (hS : Bool) :
    (applyMove R s mv hS).stack = s.stack ++ [mv] := by
  unfold applyMove
  cases h : R.pieceAt s.stack mv.to_square <;> dsimp only <;> split_ifs <;> rfl

theorem applyMove_move_history (R : Rules) (s : GameState) (mv : Move) (hS : Bool) :
    (applyMove R s mv hS).move_history = s.move_history ++ [R.san s.stack mv] := by
  unfold applyMove
  cases h : R.pieceAt s.stack mv.to_square <;> dsimp only <;> split_ifs <;> rfl

theorem applyMove_game_over (R : Rules) (s : GameState) (mv : Move) (hS : Bool) :
    (applyMove R s mv hS).game_over =
      (if R.isGameOver (s.stack ++ [mv]) = true then true else s.game_over) := by
  unfold applyMove
  cases h : R.pieceAt s.stack mv.to_square <;> dsimp only <;> split_ifs <;> simp_all

theorem applyMove_popup (R : Rules) (s : GameState) (mv : Move) (hS : Bool) :
    (applyMove R s mv hS).checkmate_popup =
      (if R.isGameOver (s.stack ++ [mv]) = true then true else s.checkmate_popup) := by
  unfold applyMove
  cases h : R.pieceAt s.stack mv.to_square <;> dsimp only <;> split_ifs <;> simp_all

theorem applyMove_winner (R : Rules) (s : GameState) (mv : Move) (hS : Bool) :
    (applyMove R s mv hS).winner =
      (if R.isGameOver (s.stack ++ [mv]) = true then
         (if R.isCheckmate (s.stack ++ [mv]) = true then
            some (if turnOf (s.stack ++ [mv]) = true then ("Black") else ("White"))
          else s.winner)
       else s.winner) := by
  unfold applyMove
  cases h : R.pieceAt s.stack mv.to_square <;> dsimp only <;> split_ifs <;> simp_all

theorem applyMove_captured_w (R : Rules) (s : GameState) (mv : Move) (hS : Bool) :
    (applyMove R s mv hS).captured_w =
      (match R.pieceAt s.stack mv.to_square with
       | some p => if p.color = true then s.captured_w ++ [p.kind] else s.captured_w
       | none => s.captured_w) := by
  unfold applyMove
  cases h : R.pieceAt s.stack mv.to_square <;> dsimp only <;> split_ifs <;> simp_all

theorem applyMove_captured_b (R : Rules) (s : GameState) (mv : Move) (hS : Bool) :
    (applyMove R s mv hS).captured_b =
      (match R.pieceAt s.stack mv.to_square with
       | some p => if p.color = false then s.captured_b ++ [p.kind] else s.captured_b
       | none => s.captured_b) := by
  unfold applyMove
  cases h : R.pieceAt s.stack mv.to_square <;> dsimp only <;> split_ifs <;> simp_all

theorem applyMove_ai_thinking (R : Rules) (s : GameState) (mv : Move) (hS : Bool) :
    (applyMove R s mv hS).ai_thinking =
      (if R.isGameOver (s.stack ++ [mv]) = true then s.ai_thinking
       else if hS = true then true else s.ai_thinking) := by
  unfold applyMove
  cases h : R.pieceAt s.stack mv.to_square <;> dsimp only <;> split_ifs <;> simp_all

theorem turnOf_append (l : List Move) (m : Move) : turnOf (l ++ [m]) = !turnOf l := by
  unfold turnOf
  rcases Nat.mod_two_eq_zero_or_one l.length with h | h <;>
    simp [List.length_append, Nat.add_mod, h]

theorem histInv_handleEvent (R : Rules) (E : Engine) (s : GameState) (e : Event)
    (h1 : s.move_history.length = s.stack.length) :
    (handleEvent R E s e).move_history.length = (handleEvent R E s e).stack.length := by
  cases e <;>
    simp only [handleEvent, undoMove] <;>
    (repeat' split) <;>
    first
      | assumption
      | simp_all [applyMove_move_history, applyMove_stack, firstAiApply, clearSelection,
          resetGame, initState, List.length_append, List.length_dropLast]

theorem popupInv_handleEvent (R : Rules) (E : Engine) (s : GameState) (e : Event)
    (h2 : s.checkmate_popup = true → s.game_over = true) :
    (handleEvent R E s e).checkmate_popup = true → (handleEvent R E s e).game_over = true := by
  cases e <;>
    simp only [handleEvent, undoMove] <;>
    (repeat' split) <;>
    first
      | assumption
      | simp_all [applyMove_popup, applyMove_game_over, firstAiApply, clearSelection,
          resetGame, initState]

theorem histInv_aiBlock (R : Rules) (E : Engine) (s : GameState)
    (h1 : s.move_history.length = s.stack.length) :
    (aiBlock R E s).move_history.length = (aiBlock R E s).stack.length := by
  simp only [aiBlock]
  (repeat' split) <;>
    first
      | assumption
      | simp_all [applyMove_move_history, applyMove_stack, List.length_append]

theorem popupInv_aiBlock (R : Rules) (E : Engine) (s : GameState)
    (h2 : s.checkmate_popup = true → s.game_over = true) :
    (aiBlock R E s).checkmate_popup = true → (aiBlock R E s).game_over = true := by
  simp only [aiBlock]
  (repeat' split) <;>
    first
      | assumption
      | simp_all [applyMove_popup, applyMove_game_over]

theorem histInv_update_timer (s : GameState) (e : Int)
    (h1 : s.move_history.length = s.stack.length) :
    (update_timer s e).move_history.length = (update_timer s e).stack.length := by
  simp only [update_timer]
  (repeat' split) <;> assumption

theorem popupInv_update_timer (s : GameState) (e : Int)
    (h2 : s.checkmate_popup = true → s.game_over = true) :
    (update_timer s e).checkmate_popup = true → (update_timer s e).game_over = true := by
  simp only [update_timer]
  (repeat' split) <;> first | assumption | simp_all

theorem histInv_frame (R : Rules) (E : Engine) (s : GameState) (ev : List Event) (e : Int)
    (h1 : s.move_history.length = s.stack.length) :
    (frame R E s ev e).move_history.length = (frame R E s ev e).stack.length := by
  have hfold : ∀ (t : GameState), t.move_history.length = t.stack.length →
      (ev.foldl (handleEvent R E) t).move_history.length =
        (ev.foldl (handleEvent R E) t).stack.length := by
    induction ev with
    | nil => intro t ht; simpa using ht
    | cons a l ih =>
        intro t ht
        simpa using ih (handleEvent R E t a) (histInv_handleEvent R E t a ht)
  simp only [frame]
  split
  · exact hfold s h1
  · exact histInv_update_timer _ _ (histInv_aiBlock R E _ (hfold s h1))

theorem popupInv_frame (R : Rules) (E : Engine) (s : GameState) (ev : List Event) (e : Int)
    (h2 : s.checkmate_popup = true → s.game_over = true) :
    (frame R E s ev e).checkmate_popup = true → (frame R E s ev e).game_over = true := by
  have hfold : ∀ (t : GameState), (t.checkmate_popup = true → t.game_over = true) →
      ((ev.foldl (handleEvent R E) t).checkmate_popup = true →
        (ev.foldl (handleEvent R E) t).game_over = true) := by
    induction ev with
    | nil => intro t ht; simpa using ht
    | cons a l ih =>
        intro t ht
        simpa using ih (handleEvent R E t a) (popupInv_handleEvent R E t a ht)
  simp only [frame]
  split
  · exact hfold s h2
  · exact popupInv_update_timer _ _ (popupInv_aiBlock R E _ (hfold s h2))

theorem histInv_runTrace (R : Rules) (E : Engine) (tr : List (List Event × Int)) :
    (runTrace R E initState tr).move_history.length =
      (runTrace R E initState tr).stack.length := by
  have hgen : ∀ (t : GameState), t.move_history.length = t.stack.length →
      (runTrace R E t tr).move_history.length = (runTrace R E t tr).stack.length := by
    induction tr with
    | nil => intro t ht; simpa [runTrace] using ht
    | cons a l ih =>
        intro t ht
        simpa [runTrace] using ih (frame R E t a.1 a.2) (histInv_frame R E t a.1 a.2 ht)
  exact hgen initState rfl

theorem popupInv_runTrace (R : Rules) (E : Engine) (tr : List (List Event × Int)) :
    (runTrace R E initState tr).checkmate_popup = true →
      (runTrace R E initState tr).game_over = true := by
  have hgen : ∀ (t : GameState), (t.checkmate_popup = true → t.game_over = true) →
      ((runTrace R E t tr).checkmate_popup = true → (runTrace R E t tr).game_over = true) := by
    induction tr with
    | nil => intro t ht; simpa [runTrace] using ht
    | cons a l ih =>
        intro t ht
        simpa [runTrace] using ih (frame R E t a.1 a.2) (popupInv_frame R E t a.1 a.2 ht)
  exact hgen initState (by simp [initState])

theorem pixel_roundtrip (pc : Option Bool) (sq : Nat) (hsq : sq < 64) (dx dy : Nat)
    (hdx : dx < 75) (hdy : dy < 75) :
    pixel_to_square pc
      ((square_to_pixel pc sq).1 + (dx : Int), (square_to_pixel pc sq).2 + (dy : Int)) =
      some sq := by
  have h8 : squareFile sq < 8 := by unfold squareFile; omega
  have hr8 : squareRank sq < 8 := by unfold squareRank; omega
  have hsum : squareRank sq * 8 + squareFile sq = sq := by unfold squareFile squareRank; omega
  have hSS : SQUARE_SIZE = 75 := by decide
  have hSSn : SQUARE_SIZE.toNat = 75 := by decide
  have hM : MARGIN = 50 := by decide
  have hB : BOARD_SIZE = 600 := by decide
  have h75 : Int.toNat 75 = 75 := rfl
  cases hb : pcTruthy pc <;>
    simp only [square_to_pixel, pixel_to_square, mkSquare, hb, Bool.true_eq_false,
      Bool.false_eq_true, if_true, if_false, ite_true, ite_false, hSS, hSSn, hM, hB,
      Int.toNat_ofNat, h75, reduceIte] <;>
    rw [if_pos (by constructor <;> [skip; constructor] <;> push_cast <;> omega)] <;>
    rw [if_pos (by constructor <;> omega)] <;>
    exact congrArg some (by omega)

theorem pixel_outside (pc : Option Bool) (pos : Int × Int)
    (h : ¬(MARGIN ≤ pos.1 ∧ pos.1 < MARGIN + BOARD_SIZE ∧
           MARGIN ≤ pos.2 ∧ pos.2 < MARGIN + BOARD_SIZE)) :
    pixel_to_square pc pos = none := by
  unfold pixel_to_square
  rw [if_neg h]

theorem square_to_pixel_inj (pc : Option Bool) (a b : Nat) (ha : a < 64) (hb : b < 64)
    (heq : square_to_pixel pc a = square_to_pixel pc b) : a = b := by
  have h1 := pixel_roundtrip pc a ha 0 0 (by omega) (by omega)
  have h2 := pixel_roundtrip pc b hb 0 0 (by omega) (by omega)
  rw [heq] at h1
  rw [h1] at h2
  exact ((Option.some.injEq _ _).mp h2.symm).symm

/-- C1: the claim says a mouse press on the outcome popup's New Game button
fully reinitializes the session and returns to color selection.  In the code
the press handler is guarded by `not self.game_over` (line 417) while
`checkmate_popup` is only ever set together with `game_over` (second
conjunct, an invariant of every reachable state), so the dismiss branch
(lines 419-425) is unreachable: in the concrete timed-out game the click on
the button's center changes nothing and the application stays out of color
selection. -/
theorem C1_dead_dismiss :
    ((runTrace rulesA engineA initState trTimeout).game_over = true ∧
     (runTrace rulesA engineA initState trTimeout).checkmate_popup = true ∧
     (runTrace rulesA engineA initState trTimeout).color_selection = false ∧
     newGameRect.collidepoint (500, 925) = true ∧
     handleEvent rulesA engineA (runTrace rulesA engineA initState trTimeout)
       (Event.mouseDown 1 (500, 925)) = runTrace rulesA engineA initState trTimeout) ∧
    (∀ (R : Rules) (E : Engine) (tr : List (List Event × Int)),
       (runTrace R E initState tr).checkmate_popup = true →
       (runTrace R E initState tr).game_over = true) :=
  ⟨by decide, popupInv_runTrace⟩

/-- Witness for C1: the popup-implies-game-over invariant applied to the
concrete timed-out trace. -/
theorem C1_dead_dismiss_witness :
    (runTrace rulesA engineA initState trTimeout).game_over = true :=
  C1_dead_dismiss.2 rulesA engineA trTimeout (by decide)

/-- C2: for every move applied by `applyMove` (the shared human/engine
application path), a piece standing on the destination square in the
pre-move position has its kind appended to the capture list keyed by its own
color — the list of pieces that the capturing side has taken — before the
move is pushed; with an empty destination both lists are untouched, and
undo, the clock update and the engine's first-move site never touch them. -/
theorem C2_capture_tally (R : Rules) (s : GameState) (mv : Move) (hS : Bool) :
    (∀ p : Piece, R.pieceAt s.stack mv.to_square = some p → p.color = false →
       (applyMove R s mv hS).captured_b = s.captured_b ++ [p.kind] ∧
       (applyMove R s mv hS).captured_w = s.captured_w) ∧
    (∀ p : Piece, R.pieceAt s.stack mv.to_square = some p → p.color = true →
       (applyMove R s mv hS).captured_w = s.captured_w ++ [p.kind] ∧
       (applyMove R s mv hS).captured_b = s.captured_b) ∧
    (R.pieceAt s.stack mv.to_square = none →
       (applyMove R s mv hS).captured_w = s.captured_w ∧
       (applyMove R s mv hS).captured_b = s.captured_b) ∧
    (∀ t : GameState,
       (undoMove t).captured_w = t.captured_w ∧ (undoMove t).captured_b = t.captured_b) ∧
    (∀ (t : GameState) (e : Int),
       (update_timer t e).captured_w = t.captured_w ∧
       (update_timer t e).captured_b = t.captured_b) ∧
    (∀ (t : GameState) (m : Move),
       (firstAiApply R t m).captured_w = t.captured_w ∧
       (firstAiApply R t m).captured_b = t.captured_b) := by
  refine ⟨?_, ?_, ?_, ?_, ?_, ?_⟩
  · intro p hp hc
    rw [applyMove_captured_b, applyMove_captured_w, hp]
    simp [hc]
  · intro p hp hc
    rw [applyMove_captured_b, applyMove_captured_w, hp]
    simp [hc]
  · intro hp
    rw [applyMove_captured_b, applyMove_captured_w, hp]
    exact ⟨rfl, rfl⟩
  · intro t
    unfold undoMove
    split_ifs <;> exact ⟨rfl, rfl⟩
  · intro t e
    simp only [update_timer]
    (repeat' split) <;> exact ⟨rfl, rfl⟩
  · intro t m
    exact ⟨rfl, rfl⟩

/-- Witness for C2: the human (White) move `e2e4` onto a black pawn appends
that pawn's kind to the list of pieces White captured and leaves the other
list unchanged. -/
theorem C2_capture_tally_witness :
    (applyMove rulesCap sBase e2e4 true).captured_b = sBase.captured_b ++ [blackPawn.kind] ∧
    (applyMove rulesCap sBase e2e4 true).captured_w = sBase.captured_w :=
  (C2_capture_tally rulesCap sBase e2e4 true).1 blackPawn (by decide) rfl

/-- C3: along every event trace from the initial state the move-history
length equals the board stack length; once color selection is over, the undo
key with at least two recorded plies removes exactly the two most recent
plies from both the stack and the history, clears the selection, and forces
the flags back to the human's turn regardless of the prior state, while with
fewer than two plies it does nothing. -/
theorem C3_history_undo :
    (∀ (R : Rules) (E : Engine) (tr : List (List Event × Int)),
       (runTrace R E initState tr).move_history.length =
         (runTrace R E initState tr).stack.length) ∧
    (∀ (R : Rules) (E : Engine) (s : GameState), s.color_selection = false →
       2 ≤ s.move_history.length →
       handleEvent R E s (Event.keyDown PKey.keyU) =
         { s with stack := s.stack.dropLast.dropLast,
                  move_history := s.move_history.dropLast.dropLast,
                  game_over := false, checkmate_popup := false, ai_thinking := false,
                  selected_square := none, valid_moves := [], selected_piece := none,
                  selected_piece_pos := none }) ∧
    (∀ (R : Rules) (E : Engine) (s : GameState), s.color_selection = false →
       s.move_history.length < 2 →
       handleEvent R E s (Event.keyDown PKey.keyU) = s) := by
  refine ⟨histInv_runTrace, ?_, ?_⟩
  · intro R E s hcs hlen
    simp [handleEvent, hcs, undoMove, hlen]
  · intro R E s hcs hlen
    have hn : ¬ 2 ≤ s.move_history.length := by omega
    simp [handleEvent, hcs, undoMove, hn]

/-- Witness for C3: undoing out of a finished two-ply game. -/
theorem C3_history_undo_witness :
    handleEvent rulesA engineA sUndo (Event.keyDown PKey.keyU) =
      { sUndo with stack := sUndo.stack.dropLast.dropLast,
                   move_history := sUndo.move_history.dropLast.dropLast,
                   game_over := false, checkmate_popup := false, ai_thinking := false,
                   selected_square := none, valid_moves := [], selected_piece := none,
                   selected_piece_pos := none } :=
  C3_history_undo.2.1 rulesA engineA sUndo rfl (by decide)

/-- C4 counterexample: the claim says files and ranks are both mirrored
when the human plays Black.  With the Black orientation the square a1
(square 0) is drawn at the top-left corner (50, 50), not at the
file-and-rank-mirrored location (575, 50): files are never mirrored by the
code (only ranks are, and the flip is applied for the White orientation). -/
theorem C4_mirror_counterexample :
    square_to_pixel (some false) 0 = (50, 50) ∧
    mirroredBlackPixel 0 = (575, 50) ∧
    square_to_pixel (some false) 0 ≠ mirroredBlackPixel 0 := by decide

/-- C4 (amended): for each fixed color choice `pixel_to_square` is a left
inverse of `square_to_pixel` on every pixel of each square's 75-by-75
rectangle, the 64 rectangles are distinct, every pixel outside the board's
bounds maps to no square, and the two orientations differ exactly by a rank
mirror (the x coordinate never depends on the color): the White view draws
rank r at `MARGIN + (7 - r) * SQUARE_SIZE` and the Black view at
`MARGIN + r * SQUARE_SIZE`, so the human's back rank lands at the bottom row
in both orientations. -/
theorem C4_coordinate_bijection :
    (∀ (pc : Option Bool) (sq : Nat), sq < 64 → ∀ (dx dy : Nat), dx < 75 → dy < 75 →
       pixel_to_square pc
         ((square_to_pixel pc sq).1 + (dx : Int), (square_to_pixel pc sq).2 + (dy : Int)) =
         some sq) ∧
    (∀ (pc : Option Bool) (a b : Nat), a < 64 → b < 64 →
       square_to_pixel pc a = square_to_pixel pc b → a = b) ∧
    (∀ (pc : Option Bool) (pos : Int × Int),
       ¬(MARGIN ≤ pos.1 ∧ pos.1 < MARGIN + BOARD_SIZE ∧
         MARGIN ≤ pos.2 ∧ pos.2 < MARGIN + BOARD_SIZE) →
       pixel_to_square pc pos = none) ∧
    (∀ sq : Nat, sq < 64 →
       (square_to_pixel (some true) sq).1 = (square_to_pixel (some false) sq).1 ∧
       (square_to_pixel (some true) sq).2 =
         MARGIN + ((7 - squareRank sq : Nat) : Int) * SQUARE_SIZE ∧
       (square_to_pixel (some false) sq).2 =
         MARGIN + ((squareRank sq : Nat) : Int) * SQUARE_SIZE) ∧
    (∀ sq : Nat, sq < 64 →
       (squareRank sq = 0 → (square_to_pixel (some true) sq).2 = MARGIN + 7 * SQUARE_SIZE) ∧
       (squareRank sq = 7 → (square_to_pixel (some false) sq).2 = MARGIN + 7 * SQUARE_SIZE)) := by
  refine ⟨pixel_roundtrip, square_to_pixel_inj, pixel_outside, ?_, ?_⟩
  · intro sq h
    refine ⟨rfl, ?_, ?_⟩ <;> simp [square_to_pixel, pcTruthy]
  · intro sq h
    constructor <;> intro hr <;> simp [square_to_pixel, pcTruthy, hr]

/-- Witness for C4: an interior pixel of e2's rectangle in the White view
maps back to square 12, and the window origin maps to no square. -/
theorem C4_coordinate_bijection_witness :
    pixel_to_square (some true)
      ((square_to_pixel (some true) 12).1 + ((3 : Nat) : Int),
       (square_to_pixel (some true) 12).2 + ((4 : Nat) : Int)) = some 12 ∧
    pixel_to_square (some false) (0, 0) = none :=
  ⟨C4_coordinate_bijection.1 (some true) 12 (by decide) 3 4 (by decide) (by decide),
   C4_coordinate_bijection.2.2.1 (some false) (0, 0) (by decide)⟩

/-- C5: the clock update does nothing before game start or after game over;
otherwise exactly the side-to-move's countdown decreases (strictly, for
positive elapsed time), the expiry check runs in the same update, the first
update that leaves a countdown at or below zero ends the game with the
winner being the other side and raises the popup, and if the game is not
over after the update both countdowns are still positive and nothing but the
decremented clock changed. -/
theorem C5_clock_invariant (s : GameState) (e : Int) :
    ((s.game_started = false ∨ s.game_over = true) → update_timer s e = s) ∧
    (s.game_started = true → s.game_over = false →
      ((update_timer s e).white_time =
         (if turnOf s.stack = true then s.white_time - e else s.white_time) ∧
       (update_timer s e).black_time =
         (if turnOf s.stack = true then s.black_time else s.black_time - e)) ∧
      (0 < e →
        (turnOf s.stack = true →
          (update_timer s e).white_time < s.white_time ∧
          (update_timer s e).black_time = s.black_time) ∧
        (turnOf s.stack = false →
          (update_timer s e).black_time < s.black_time ∧
          (update_timer s e).white_time = s.white_time)) ∧
      (turnOf s.stack = true → s.white_time - e ≤ 0 →
        (update_timer s e).game_over = true ∧
        (update_timer s e).winner = some ("Black") ∧
        (update_timer s e).checkmate_popup = true) ∧
      (turnOf s.stack = false → 0 < s.white_time → s.black_time - e ≤ 0 →
        (update_timer s e).game_over = true ∧
        (update_timer s e).winner = some ("White") ∧
        (update_timer s e).checkmate_popup = true) ∧
      ((update_timer s e).game_over = false →
        0 < (update_timer s e).white_time ∧ 0 < (update_timer s e).black_time) ∧
      ((update_timer s e).game_over = false →
        (update_timer s e) =
          (if turnOf s.stack = true then { s with white_time := s.white_time - e }
           else { s with black_time := s.black_time - e }))) := by
  constructor
  · intro h
    unfold update_timer
    rw [if_pos h]
  · intro hgs hgo
    have hc : ¬(s.game_started = false ∨ s.game_over = true) := by simp [hgs, hgo]
    refine ⟨?_, ?_, ?_, ?_, ?_, ?_⟩ <;>
      (unfold update_timer; rw [if_neg hc]) <;>
      cases ht : turnOf s.stack <;>
      simp only [ht, Bool.true_eq_false, Bool.false_eq_true, if_true, if_false,
        ite_true, ite_false, reduceIte] <;>
      split_ifs <;>
      simp_all

/-- Witness for C5: from a fresh game an update of 601 seconds expires
White's clock, ends the game with winner Black and raises the popup. -/
theorem C5_clock_invariant_witness :
    (update_timer sClock 601).game_over = true ∧
    (update_timer sClock 601).winner = some ("Black") ∧
    (update_timer sClock 601).checkmate_popup = true :=
  ((C5_clock_invariant sClock 601).2 rfl rfl).2.2.1 rfl (by decide)

/-- C6: in the engine block, when the engine returns no move or a move that
is not currently legal, the resulting state is exactly the input state with
`ai_thinking` cleared — no move is pushed, no history entry, no tally or
last-move change — so control returns to the human's turn; the embedding of
`get_ai_move` as an `Option`-valued oracle reflects that the source catches
every engine exception. -/
theorem C6_engine_failure_skips (R : Rules) (E : Engine) (s : GameState)
    (h1 : s.ai_thinking = true) (h2 : s.game_over = false) :
    (E s.stack = none → aiBlock R E s = { s with ai_thinking := false }) ∧
    (∀ m : Move, E s.stack = some m → m ∉ R.legalMoves s.stack →
       aiBlock R E s = { s with ai_thinking := false }) := by
  constructor
  · intro hE
    simp [aiBlock, h1, h2, hE]
  · intro m hE hm
    simp [aiBlock, h1, h2, hE, hm]

/-- Witness for C6: a silent engine leaves the waiting state unchanged
except for clearing the thinking flag. -/
theorem C6_engine_failure_skips_witness :
    aiBlock rulesA engineNone sThinking = { sThinking with ai_thinking := false } :=
  (C6_engine_failure_skips rulesA engineNone sThinking rfl rfl).1 rfl

/-- C7 counterexample: the claim says every non-checkmate termination
reports a draw.  In the trace a timeout sets the winner to Black, the undo
clears the game-over flag but not the winner, and the following move into a
terminal non-checkmate position shows the popup announcing a stale
"Black wins!" instead of a draw. -/
theorem C7_stale_winner_counterexample :
    (runTrace rulesA engineA initState trStaleWinner).game_over = true ∧
    (runTrace rulesA engineA initState trStaleWinner).stack = [d2d4] ∧
    rulesA.isCheckmate (runTrace rulesA engineA initState trStaleWinner).stack = false ∧
    (runTrace rulesA engineA initState trStaleWinner).winner = some ("Black") ∧
    popupText (runTrace rulesA engineA initState trStaleWinner) ≠ ("Draw!") := by decide

/-- C7 (amended): when applying a move ends the game, the game-over flag and
the popup are raised; under checkmate the winner is the side that just moved
(the opposite of the new side to move); under any other terminal condition
the winner field is left unmodified, and the announcement reports a draw
provided no winner value persists from an earlier clock expiry that undo
failed to clear. -/
theorem C7_winner_rule (R : Rules) (s : GameState) (mv : Move) (hS : Bool)
    (hOver : R.isGameOver (s.stack ++ [mv]) = true) :
    (applyMove R s mv hS).game_over = true ∧
    (applyMove R s mv hS).checkmate_popup = true ∧
    (R.isCheckmate (s.stack ++ [mv]) = true →
       (applyMove R s mv hS).winner =
         some (if turnOf s.stack = true then ("White") else ("Black"))) ∧
    (R.isCheckmate (s.stack ++ [mv]) = false →
       (applyMove R s mv hS).winner = s.winner) ∧
    (R.isCheckmate (s.stack ++ [mv]) = false → s.winner = none →
       popupText (applyMove R s mv hS) = ("Draw!")) := by
  refine ⟨?_, ?_, ?_, ?_, ?_⟩
  · rw [applyMove_game_over, if_pos hOver]
  · rw [applyMove_popup, if_pos hOver]
  · intro hcm
    rw [applyMove_winner, if_pos hOver, if_pos hcm, turnOf_append]
    cases ht : turnOf s.stack <;> simp [ht]
  · intro hcm
    rw [applyMove_winner, if_pos hOver, if_neg (by simp [hcm])]
  · intro hcm hw
    unfold popupText
    rw [applyMove_winner, if_pos hOver, if_neg (by simp [hcm]), hw]

/-- Witness for C7: a non-checkmate termination out of a fresh game keeps
the winner unset and announces a draw. -/
theorem C7_winner_rule_witness :
    (applyMove rulesA sBase d2d4 true).winner = sBase.winner ∧
    popupText (applyMove rulesA sBase d2d4 true) = ("Draw!") :=
  ⟨(C7_winner_rule rulesA sBase d2d4 true (by decide)).2.2.2.1 (by decide),
   (C7_winner_rule rulesA sBase d2d4 true (by decide)).2.2.2.2 (by decide) rfl⟩

/-- C8: at all three application sites — the shared `applyMove` path, the
human mouse-release handler, the engine block, and the engine's first move
as White — the SAN string appended to the move history is the rules
library's notation of the move queried on the pre-move stack. -/
theorem C8_san_before_push (R : Rules) (E : Engine) :
    (∀ (s : GameState) (mv : Move) (hS : Bool),
       (applyMove R s mv hS).move_history = s.move_history ++ [R.san s.stack mv]) ∧
    (∀ (s : GameState) (pos : Int × Int) (sel tgt : Nat),
       s.color_selection = false → s.game_over = false → s.ai_thinking = false →
       s.selected_square = some sel → pixel_to_square s.player_color pos = some tgt →
       ({ from_square := sel, to_square := tgt, promotion := none } : Move) ∈ s.valid_moves →
       (handleEvent R E s (Event.mouseUp 1 pos)).move_history =
         s.move_history ++
           [R.san s.stack ({ from_square := sel, to_square := tgt, promotion := none } : Move)]) ∧
    (∀ (s : GameState) (m : Move), s.ai_thinking = true → s.game_over = false →
       E s.stack = some m → m ∈ R.legalMoves s.stack →
       (aiBlock R E s).move_history = s.move_history ++ [R.san s.stack m]) ∧
    (∀ (s : GameState) (m : Move),
       (firstAiApply R s m).move_history = s.move_history ++ [R.san s.stack m]) := by
  refine ⟨fun s mv hS => applyMove_move_history R s mv hS, ?_, ?_, fun s m => rfl⟩
  · intro s pos sel tgt hcs hgo hai hsel hpix hmem
    simp [handleEvent, hcs, hgo, hai, hsel, hpix, hmem, clearSelection,
      applyMove_move_history]
  · intro s m hai hgo hE hm
    simp [aiBlock, hai, hgo, hE, hm, applyMove_move_history]

/-- Witness for C8: releasing the selected e2 pawn on e4 appends the SAN of
the move computed on the pre-move (empty) stack. -/
theorem C8_san_before_push_witness :
    (handleEvent rulesA engineA sSelected (Event.mouseUp 1 (360, 360))).move_history =
      sSelected.move_history ++ [rulesA.san sSelected.stack e2e4] :=
  (C8_san_before_push rulesA engineA).2.1 sSelected (360, 360) 12 28 rfl rfl rfl rfl
    (by decide) (by decide)

/-- C9 counterexample: the claim's invariant says the selection is non-empty
only while it is the human's turn and the game is not over.  Selecting the
e2 pawn and letting the clock expire in the same frame leaves the game over
with the selection still populated — a timeout never clears it. -/
theorem C9_selection_timeout_counterexample :
    (runTrace rulesA engineA initState trSelectTimeout).game_over = true ∧
    (runTrace rulesA engineA initState trSelectTimeout).selected_square = some 12 ∧
    (runTrace rulesA engineA initState trSelectTimeout).valid_moves = [e2e4] ∧
    (runTrace rulesA engineA initState trSelectTimeout).selected_piece = some ("wp") := by
  decide

/-- C9 (amended): a press on a square whose piece does not belong to the
side to move or does not match the human's chosen color leaves the state
unchanged, and any event that newly populates the selection does so only
with the game not over, the engine not thinking, no popup shown, and a
pressed piece matching both the side to move and the human's color; the
selection is cleared on release, undo and reset, but not by a clock expiry,
so it can persist into a timeout-induced game over. -/
theorem C9_selection_guard :
    (∀ (R : Rules) (E : Engine) (s : GameState) (b : Nat) (pos : Int × Int)
       (sq : Nat) (p : Piece),
       s.color_selection = false → s.checkmate_popup = false →
       pixel_to_square s.player_color pos = some sq →
       R.pieceAt s.stack sq = some p →
       ¬(p.color = turnOf s.stack ∧ p.color = pcTruthy s.player_color) →
       handleEvent R E s (Event.mouseDown b pos) = s) ∧
    (∀ (R : Rules) (E : Engine) (s : GameState) (e : Event),
       (handleEvent R E s e).selected_square = s.selected_square ∨
       (handleEvent R E s e).selected_square = none ∨
       (s.game_over = false ∧ s.ai_thinking = false ∧ s.checkmate_popup = false ∧
        ∃ (sq : Nat) (p : Piece),
          (handleEvent R E s e).selected_square = some sq ∧
          R.pieceAt s.stack sq = some p ∧ p.color = turnOf s.stack ∧
          p.color = pcTruthy s.player_color)) := by
  constructor
  · intro R E s b pos sq p hcs hpop hpix hp hmm
    unfold handleEvent
    rw [if_neg (by simp [hcs])]
    dsimp only
    by_cases hg : (s.game_over = false ∧ s.ai_thinking = false ∧ b = 1)
    · rw [if_pos hg, if_neg (by simp [hpop]), hpix]
      dsimp only
      rw [hp]
      dsimp only
      rw [if_neg ?_]
      intro hc
      apply hmm
      refine ⟨hc.1, ?_⟩
      rcases hc.2 with ⟨h1, h2⟩ | ⟨h1, h2⟩ <;> rw [h2, h1]
    · rw [if_neg hg]
  · intro R E s e
    cases e with
    | mouseDown b pos =>
        unfold handleEvent
        split
        · dsimp only
          (repeat' split) <;> exact Or.inl rfl
        · dsimp only
          by_cases hg : (s.game_over = false ∧ s.ai_thinking = false ∧ b = 1)
          · rw [if_pos hg]
            by_cases hpop : s.checkmate_popup = true
            · rw [if_pos hpop]
              split_ifs <;> [exact Or.inr (Or.inl rfl); exact Or.inl rfl]
            · rw [if_neg hpop]
              cases hpix : pixel_to_square s.player_color pos with
              | none => exact Or.inl rfl
              | some sq =>
                  dsimp only
                  cases hp : R.pieceAt s.stack sq with
                  | none => exact Or.inl rfl
                  | some p =>
                      dsimp only
                      split_ifs with hcond
                      · refine Or.inr (Or.inr ⟨hg.1, hg.2.1, by simpa using hpop, sq, p,
                          rfl, hp, hcond.1, ?_⟩)
                        rcases hcond.2 with ⟨h1, h2⟩ | ⟨h1, h2⟩ <;> rw [h2, h1]
                      · exact Or.inl rfl
          · rw [if_neg hg]
            exact Or.inl rfl
    | mouseUp b pos =>
        unfold handleEvent
        split
        · dsimp only
          exact Or.inl rfl
        · dsimp only
          (repeat' split) <;>
            first
              | exact Or.inl rfl
              | exact Or.inr (Or.inl rfl)
    | mouseMotion pos =>
        unfold handleEvent
        split
        · dsimp only
          exact Or.inl rfl
        · dsimp only
          split_ifs <;> exact Or.inl rfl
    | keyDown k =>
        unfold handleEvent
        split
        · dsimp only
          exact Or.inl rfl
        · dsimp only
          cases k
          · exact Or.inr (Or.inl rfl)
          · unfold undoMove
            split_ifs <;>
              first
                | exact Or.inr (Or.inl rfl)
                | exact Or.inl rfl
          · exact Or.inl rfl

/-- Witness for C9: with the human playing Black, pressing the white pawn on
e2 (which is the side to move but not the human's color) changes nothing. -/
theorem C9_selection_guard_witness :
    handleEvent rulesA engineA sHumanBlack (Event.mouseDown 1 (360, 130)) = sHumanBlack :=
  C9_selection_guard.1 rulesA engineA sHumanBlack 1 (360, 130) 12 whitePawn rfl rfl
    (by decide) (by decide) (by decide)

/-- C10: once color selection is over, the undo key with at least two
recorded plies changes only the stack, the history, the selection fields and
the three flags: both clocks, both capture tallies, the winner field, the
last-move marker, the chosen color and the started flag all keep their
values — time and captures of the undone plies are not refunded and a
stale winner survives undoing out of a game over. -/
theorem C10_undo_frame (R : Rules) (E : Engine) (s : GameState)
    (hcs : s.color_selection = false) (hlen : 2 ≤ s.move_history.length) :
    (handleEvent R E s (Event.keyDown PKey.keyU)).white_time = s.white_time ∧
    (handleEvent R E s (Event.keyDown PKey.keyU)).black_time = s.black_time ∧
    (handleEvent R E s (Event.keyDown PKey.keyU)).captured_w = s.captured_w ∧
    (handleEvent R E s (Event.keyDown PKey.keyU)).captured_b = s.captured_b ∧
    (handleEvent R E s (Event.keyDown PKey.keyU)).winner = s.winner ∧
    (handleEvent R E s (Event.keyDown PKey.keyU)).last_move = s.last_move ∧
    (handleEvent R E s (Event.keyDown PKey.keyU)).player_color = s.player_color ∧
    (handleEvent R E s (Event.keyDown PKey.keyU)).game_started = s.game_started ∧
    (handleEvent R E s (Event.keyDown PKey.keyU)).color_selection = s.color_selection ∧
    (handleEvent R E s (Event.keyDown PKey.keyU)).stack = s.stack.dropLast.dropLast ∧
    (handleEvent R E s (Event.keyDown PKey.keyU)).move_history =
      s.move_history.dropLast.dropLast ∧
    (handleEvent R E s (Event.keyDown PKey.keyU)).game_over = false ∧
    (handleEvent R E s (Event.keyDown PKey.keyU)).checkmate_popup = false ∧
    (handleEvent R E s (Event.keyDown PKey.keyU)).ai_thinking = false ∧
    (handleEvent R E s (Event.keyDown PKey.keyU)).selected_square = none ∧
    (handleEvent R E s (Event.keyDown PKey.keyU)).valid_moves = [] ∧
    (handleEvent R E s (Event.keyDown PKey.keyU)).selected_piece = none ∧
    (handleEvent R E s (Event.keyDown PKey.keyU)).selected_piece_pos = none := by
  have hrec : handleEvent R E s (Event.keyDown PKey.keyU) =
      { s with stack := s.stack.dropLast.dropLast,
               move_history := s.move_history.dropLast.dropLast,
               game_over := false, checkmate_popup := false, ai_thinking := false,
               selected_square := none, valid_moves := [], selected_piece := none,
               selected_piece_pos := none } := by
    simp [handleEvent, hcs, undoMove, hlen]
  rw [hrec]
  exact ⟨rfl, rfl, rfl, rfl, rfl, rfl, rfl, rfl, rfl, rfl, rfl, rfl, rfl, rfl, rfl, rfl,
    rfl, rfl⟩

/-- Witness for C10: undoing out of the finished two-ply game keeps the
clock, the tallies and the stale winner while clearing the game-over flag. -/
theorem C10_undo_frame_witness :
    (handleEvent rulesA engineA sUndo (Event.keyDown PKey.keyU)).white_time =
      sUndo.white_time ∧
    (handleEvent rulesA engineA sUndo (Event.keyDown PKey.keyU)).captured_w =
      sUndo.captured_w ∧
    (handleEvent rulesA engineA sUndo (Event.keyDown PKey.keyU)).winner = sUndo.winner ∧
    (handleEvent rulesA engineA sUndo (Event.keyDown PKey.keyU)).game_over = false :=
  ⟨(C10_undo_frame rulesA engineA sUndo rfl (by decide)).1,
   (C10_undo_frame rulesA engineA sUndo rfl (by decide)).2.2.1,
   (C10_undo_frame rulesA engineA sUndo rfl (by decide)).2.2.2.2.1,
   (C10_undo_frame rulesA engineA sUndo rfl (by decide)).2.2.2.2.2.2.2.2.2.2.2.1⟩
